import Mathlib

/-!
Shallow embedding of `src/quality_checker.py` (repository shuleihust/structured-insights).

The embedding models the scoring core: the four analyzers
(`_check_structure`, `_check_syntax`, `_check_content_quality`, `_check_completeness`),
the aggregation in `check_file`, `_calculate_grade` and `_generate_suggestions`.
Documents are Lean `String`s (Python 3 `str`: both are sequences of Unicode
scalar values, so `len`, `count`, and substring tests coincide).

Python evaluates the total as `int(s1*0.25 + s2*0.25 + s3*0.30 + s4*0.20)` in
IEEE doubles.  Every analyzer deducts only multiples of 5 from 100 and clamps at
0, so every reachable sub-score is a multiple of 5 in [0,100]; on that grid the
double computation is exhaustively equal to exact truncation toward zero, which
for non-negative inputs is the Euclidean/floor division `(25*s1+25*s2+30*s3+20*s4)/100`
used below.
-/

namespace QualityChecker

/-- The `QualityReport` dataclass: score, grade, metrics, issues, suggestions.
The Python metrics dict maps names to formatted strings (the line count is an
`int`; it is rendered with `toString` here). -/
structure QualityReport where
  score : Int
  grade : String
  metrics : List (String × String)
  issues : List String
  suggestions : List String
deriving DecidableEq, Repr

/-- List `self.required_sections` from `QualityChecker.__init__`. -/
def required_sections : List String := ["defun", "目标", "思维模型"]

/-- List `self.recommended_sections` from `QualityChecker.__init__`. -/
def recommended_sections : List String := ["人格特质", "核心信念", "语言武器库", "执行流程", "质量检验标准", "禁忌清单"]

/-- Does `pat` occur as a contiguous run at the head of `l`? (helper for the
Python substring test). -/
def headMatches : List Char → List Char → Bool
  | _, [] => true
  | [], _ :: _ => false
  | c :: cs, p :: ps => c == p && headMatches cs ps

/-- Does `pat` occur as a contiguous substring of `l`? -/
def listHasSub : List Char → List Char → Bool
  | [], pat => pat.isEmpty
  | c :: cs, pat => headMatches (c :: cs) pat || listHasSub cs pat

/-- Python's `pat in content` on strings: contiguous substring occurrence,
case-sensitive. -/
def inStr (pat content : String) : Bool :=
  listHasSub content.toList pat.toList

/-- Embeds `QualityChecker._check_structure`: start at 100, subtract 30 per missing
required section (one issue each), count missing recommended sections, subtract
5 per missing one (single aggregate issue when the count is positive), clamp at 0. -/
def check_structure (content : String) : Int × List String :=
  let req := required_sections.foldl
    (fun acc sec =>
      if inStr sec content then acc
      else (acc.1 - 30, acc.2 ++ ["❌ 缺少必需部分: " ++ sec]))
    ((100 : Int), ([] : List String))
  let missing_recommended := recommended_sections.foldl
    (fun n sec => if inStr sec content then n else n + 1) (0 : Nat)
  let score := req.1 - (missing_recommended : Int) * 5
  let issues :=
    if 0 < missing_recommended
    then req.2 ++ ["⚠️  缺少 " ++ toString missing_recommended ++ " 个推荐部分"]
    else req.2
  (max 0 score, issues)

/-- Embeds `QualityChecker._calculate_grade`: five-threshold step function. -/
def calculate_grade (score : Int) : String :=
  if score ≥ 90 then "A"
  else if score ≥ 80 then "B"
  else if score ≥ 70 then "C"
  else if score ≥ 60 then "D"
  else "F"

/-- Embeds `QualityChecker._generate_suggestions`: built in source order from the
five scores. -/
def generate_suggestions (total_score structure_score stx_score content_score completeness_score : Int) : List String :=
  let s0 : List String :=
    if total_score ≥ 90 then ["✨ 质量优秀！可以直接使用"]
    else if total_score ≥ 80 then ["👍 质量良好，建议优化到90分以上"]
    else ["⚠️  质量需要改进"]
  let s1 := if structure_score < 80 then s0 ++ ["📝 补充缺失的结构部分（人格特质、核心信念等）"] else s0
  let s2 := if stx_score < 80 then s1 ++ ["🔧 修复 Lisp 语法问题，确保括号配对"] else s1
  let s3 := if content_score < 80 then s2 ++ ["📚 丰富内容细节，添加更多思维模型和步骤", "💡 添加具体示例和案例"] else s2
  let s4 := if completeness_score < 80 then s3 ++ ["✏️  扩充各部分内容，避免过于简单"] else s3
  let s5 := if total_score < 70 then s4 ++ ["🔄 建议优化输入文案后重新提取"] else s4
  s5

/-- Characters matched by Python's `\s` in Unicode (str) mode: the ASCII
whitespace and separator controls plus the Unicode space separators. -/
def pyWhitespace : List Char :=
  ['\t', '\n', '\x0b', '\x0c', '\r', '\x1c', '\x1d', '\x1e', '\x1f', ' ',
   '\u0085', ' ', ' ', ' ', ' ', ' ', ' ',
   ' ', ' ', ' ', ' ', ' ', ' ', ' ',
   ' ', ' ', ' ', ' ', '　']

/-- Python regex `\s` on one character. -/
def isWS (c : Char) : Bool := pyWhitespace.contains c

/-- Does a match of `\(defun\s+\S+\s+\(\)` start at the head of `l`?
Since `\s+` must stop exactly where a `\S` begins and vice versa, the
backtracking search reduces to: the literal `(defun`, a maximal nonempty
whitespace run, a maximal nonempty non-whitespace run, a maximal nonempty
whitespace run, then the literal `()` . -/
def defunMatchAt (l : List Char) : Bool :=
  match l with
  | '(' :: 'd' :: 'e' :: 'f' :: 'u' :: 'n' :: r1 =>
    match r1 with
    | [] => false
    | c1 :: _ =>
      isWS c1 &&
      (let r2 := r1.dropWhile isWS
       match r2 with
       | [] => false
       | _ :: _ =>
         let r3 := r2.dropWhile (fun c => ! isWS c)
         match r3 with
         | [] => false
         | c3 :: _ =>
           isWS c3 &&
           (match r3.dropWhile isWS with
            | '(' :: ')' :: _ => true
            | _ => false))
  | _ => false

/-- Does `p` hold on some suffix of `l`? (`re.search` tries every start
position). -/
def anySuffix (p : List Char → Bool) : List Char → Bool
  | [] => p []
  | c :: cs => p (c :: cs) || anySuffix p cs

/-- Embeds `re.search` of the defun pattern as a Boolean. -/
def defunSearch (content : String) : Bool :=
  anySuffix defunMatchAt content.toList

/-- One code point in the CJK range `[一-龥]`. -/
def isCJK (c : Char) : Bool := 0x4e00 ≤ c.toNat && c.toNat ≤ 0x9fa5

/-- Does a match of `;.*[一-龥]` start at the head of `l`?  `.` does
not cross a newline, so this asks for a CJK character after the `;` on the
same line. -/
def cnCommentAt (l : List Char) : Bool :=
  match l with
  | ';' :: rest => (rest.takeWhile (fun c => c != '\n')).any isCJK
  | _ => false

/-- Embeds `re.search` of the CJK line-comment pattern as a Boolean. -/
def cnCommentSearch (content : String) : Bool :=
  anySuffix cnCommentAt content.toList

/-- Largest index `k ≥ 1` in `run` holding `c` (backtracking of a greedy
`[^)]+` that must leave at least one character before the final literal). -/
def lastPos1 (c : Char) (run : List Char) : Option Nat :=
  run.enum.foldl
    (fun acc kx => if 1 ≤ kx.1 && kx.2 == c then some kx.1 else acc) none

/-- Largest index `k ≥ 1` in `run` where the two-character literal `c d`
starts (both characters inside `run`). -/
def lastPos2 (c d : Char) (run : List Char) : Option Nat :=
  (run.zip run.tail).enum.foldl
    (fun acc kp => if 1 ≤ kp.1 && kp.2.1 == c && kp.2.2 == d then some kp.1 else acc) none

/-- Length of the match of `\([^)]+法|\([^)]+思维|\([^)]+模型` starting at the
head of `l`, if any.  Each branch is `(`, a greedy nonempty run of
non-`)` characters, then the literal; greedy backtracking picks the last
occurrence of the literal inside the non-`)` run, at offset at least 1.
Branches are tried in source order. -/
def tmMatchLen (l : List Char) : Option Nat :=
  match l with
  | '(' :: rest =>
    let run := rest.takeWhile (fun c => c != ')')
    match lastPos1 '法' run with
    | some k => some (k + 2)
    | none =>
      match lastPos2 '思' '维' run with
      | some k => some (k + 3)
      | none =>
        match lastPos2 '模' '型' run with
        | some k => some (k + 3)
        | none => none
  | _ => none

/-- Is `c` one of the ordinal characters `[一二三四五六七八九十]`? -/
def isCnOrdinal (c : Char) : Bool :=
  ['一', '二', '三', '四', '五', '六', '七', '八', '九', '十'].contains c

/-- Length of the match of `第[一二三四五六七八九十]+步` starting at the head
of `l`, if any: `第`, a maximal nonempty ordinal run, then `步`. -/
def stepMatchLen (l : List Char) : Option Nat :=
  match l with
  | '第' :: rest =>
    let run := rest.takeWhile isCnOrdinal
    if 1 ≤ run.length && rest.getD run.length ' ' == '步'
    then some (run.length + 2) else none
  | _ => none

/-- The `re.findall` scanning loop for a match-length function `m`: at each
position take the match and skip past it, else advance one character.  The
fuel argument (initially the list length) only makes the recursion
structural; every match has positive length, so the fuel never runs out. -/
def findallCount (m : List Char → Option Nat) : Nat → List Char → Nat
  | 0, _ => 0
  | _, [] => 0
  | fuel + 1, c :: cs =>
    match m (c :: cs) with
    | some len => 1 + findallCount m fuel (cs.drop (len - 1))
    | none => findallCount m fuel cs

/-- Embeds the thinking-model count `len(re.findall(...))` of `_check_content_quality`. -/
def countTM (content : String) : Nat :=
  findallCount tmMatchLen content.toList.length content.toList

/-- Embeds the step count `len(re.findall(...))` of `_check_content_quality`. -/
def countSteps (content : String) : Nat :=
  findallCount stepMatchLen content.toList.length content.toList

/-- Match of `sec ++ [^)]*\)` starting at the head of `rest`, if any: the
literal section name, then everything up to and including the first `)`. -/
def secMatchAt (sec rest : List Char) : Option (List Char) :=
  match headMatches rest sec, rest.drop sec.length with
  | false, _ => none
  | true, after =>
    let body := after.takeWhile (fun c => c != ')')
    if body.length < after.length then some (sec ++ body ++ [')']) else none

/-- Leftmost match of the pattern `f'{section}[^)]*\\)'`
(`re.findall(...)[0]` when the list is nonempty). -/
def secFindFirst (sec : List Char) : List Char → Option (List Char)
  | [] => secMatchAt sec []
  | c :: cs =>
    match secMatchAt sec (c :: cs) with
    | some m => some m
    | none => secFindFirst sec cs

/-- Aggregation in `check_file`: `int(s1*0.25 + s2*0.25 + s3*0.30 + s4*0.20)`.
On all reachable sub-scores (multiples of 5 in [0,100]) the Python double
arithmetic equals exact truncation toward zero, i.e. this floor division for
non-negative inputs (see file header). -/
def total_score (structure_score stx_score content_score completeness_score : Int) : Int :=
  (structure_score * 25 + stx_score * 25 + content_score * 30 + completeness_score * 20) / 100

/-- Embeds `QualityChecker._check_syntax` (named `check_stx` here): delimiter-count
balance, presence of the `(defun name ()` pattern, presence of a line comment
with a CJK character; clamp at 0. -/
def check_stx (content : String) : Int × List String :=
  let open_count := content.toList.count '('
  let close_count := content.toList.count ')'
  let p1 : Int × List String :=
    if open_count ≠ close_count then
      let diff : Int := |(open_count : Int) - (close_count : Int)|
      ((100 : Int) - min 50 (diff * 5),
       ["❌ 括号不配对: 左括号 " ++ toString open_count ++ " 个, 右括号 " ++ toString close_count ++ " 个"])
    else ((100 : Int), [])
  let p2 :=
    if ! defunSearch content
    then (p1.1 - 20, p1.2 ++ ["⚠️  defun 函数定义格式可能不正确"])
    else p1
  let p3 :=
    if ! cnCommentSearch content
    then (p2.1 - 10, p2.2 ++ ["⚠️  缺少中文注释"])
    else p2
  (max 0 p3.1, p3.2)

/-- Embeds `QualityChecker._check_content_quality`: length bands, placeholder
detection, thinking-model density, step density, example presence; clamp at 0. -/
def check_content_quality (content : String) : Int × List String :=
  let p1 : Int × List String :=
    if content.length < 500 then ((100 : Int) - 40, ["❌ 内容过短，可能提取不完整"])
    else if content.length < 1000 then ((100 : Int) - 20, ["⚠️  内容较短，建议丰富细节"])
    else ((100 : Int), [])
  let p2 :=
    if inStr "..." content || inStr "待补充" content || inStr "TODO" content
    then (p1.1 - 15, p1.2 ++ ["⚠️  包含占位符或待完成内容"])
    else p1
  let p3 :=
    if countTM content < 2
    then (p2.1 - 20, p2.2 ++ ["⚠️  思维模型数量偏少（建议3-5个）"])
    else p2
  let p4 :=
    if countSteps content < 3
    then (p3.1 - 15, p3.2 ++ ["⚠️  执行步骤较少（建议3-7步）"])
    else p3
  let p5 :=
    if ! inStr "示例" content && ! inStr "例如" content && ! inStr "案例" content
    then (p4.1 - 10, p4.2 ++ ["💡 建议添加示例或案例"])
    else p4
  (max 0 p5.1, p5.2)

/-- The `sections_to_check` table inside `_check_completeness` (insertion order). -/
def sections_to_check : List (String × Nat) :=
  [("目标", 20), ("核心信念", 30), ("思维模型", 50)]

/-- One iteration of the `_check_completeness` loop: deduct 15 when the section
is present, the pattern `f'{section}[^)]*\\)'` has a match, and the first
match is shorter than the expected minimum length. -/
def completenessStep (content : String) (acc : Int × List String) (p : String × Nat) : Int × List String :=
  if inStr p.1 content then
    match secFindFirst p.1.toList content.toList with
    | some m =>
      if m.length < p.2
      then (acc.1 - 15, acc.2 ++ ["⚠️  \x27" ++ p.1 ++ "\x27 部分内容过于简单"])
      else acc
    | none => acc
  else acc

/-- Embeds `QualityChecker._check_completeness`: underdeveloped-section deductions,
then the usage-guide check; clamp at 0. -/
def check_completeness (content : String) : Int × List String :=
  let p := sections_to_check.foldl (completenessStep content) ((100 : Int), ([] : List String))
  let q :=
    if ! inStr "使用指南" content && ! inStr "start" content
    then (p.1 - 10, p.2 ++ ["💡 建议添加使用指南或启动函数"])
    else p
  (max 0 q.1, q.2)

/-- The successful branch of `QualityChecker.check_file`, applied to the text
the read produced. -/
def check_document (content : String) : QualityReport :=
  let structure_res := check_structure content
  let stx_res := check_stx content
  let content_res := check_content_quality content
  let completeness_res := check_completeness content
  let total := total_score structure_res.1 stx_res.1 content_res.1 completeness_res.1
  { score := total
    grade := calculate_grade total
    metrics :=
      [("结构完整性", toString structure_res.1 ++ "/100"),
       ("Lisp语法", toString stx_res.1 ++ "/100"),
       ("内容质量", toString content_res.1 ++ "/100"),
       ("完整度", toString completeness_res.1 ++ "/100"),
       ("文件大小", toString content.length ++ " 字符"),
       ("总行数", toString (content.toList.count '\n' + 1))]
    issues := structure_res.2 ++ stx_res.2 ++ content_res.2 ++ completeness_res.2
    suggestions := generate_suggestions total structure_res.1 stx_res.1 content_res.1 completeness_res.1 }

/-- Embeds `QualityChecker.check_file`: the read either yields the document text or
raises with a message `e`; the handler downgrades the failure to a fixed
zero-score report carrying `str(e)`. -/
def check_file (readResult : Except String String) : QualityReport :=
  match readResult with
  | .ok content => check_document content
  | .error e =>
    { score := 0
      grade := "F"
      metrics := []
      issues := ["文件读取失败: " ++ e]
      suggestions := ["检查文件路径是否正确", "确保文件格式正确"] }

/-- Rank of a grade letter, for stating monotonicity (F < D < C < B < A). -/
def gradeRank (g : String) : Nat :=
  if g = "F" then 0 else if g = "D" then 1 else if g = "C" then 2
  else if g = "B" then 3 else 4

/-- Deduction condition of the `_check_completeness` loop for one
`(section, minimum)` pair: the marker occurs in the text and the first
substring from the marker up to and including the first following `)` is
shorter than the minimum. -/
def underdeveloped (content : String) (p : String × Nat) : Bool :=
  inStr p.1 content &&
    match secFindFirst p.1.toList content.toList with
    | some m => decide (m.length < p.2)
    | none => false

/-- Negation of the completeness deduction: the section's
marker-to-close-delimiter extract exists and has at least the configured
minimum length. -/
def extractLongEnough (content : String) (p : String × Nat) : Bool :=
  match secFindFirst p.1.toList content.toList with
  | some m => decide (p.2 ≤ m.length)
  | none => false

/-- Concrete document exercising the high-quality scenario: all required and
recommended markers, ample length, enough models and steps, an example word,
long enough sections, balanced delimiters, a well-formed defun header and a
CJK line comment. -/
def docGood : String :=
  "; 这是中文注释\n(defun 启动 ())\n(目标 帮助用户建立系统思考能力并持续精进自我)\n(核心信念 长期主义 复利思考 极度求真 极度透明 知行合一)\n(思维模型 第一步明确问题 第二步拆解要素 第三步验证结论 持续迭代复盘总结经验教训逐步形成方法论体系)\n(系统思维) (黄金圈法)\n(人格特质 冷静 理性)\n(语言武器库 例如 金句)\n(执行流程 先问后答)\n(质量检验标准 准确)\n(禁忌清单 空话)\n口口口口口口口口口口口口口口口口口口口口口口口口口口口口口口口口口口口口口口口口口口口口口口口口口口口口口口口口口口口口口口口口口口口口口口口口口口口口口口口口口口口口口口口口口口口口口口口口口口口口口口口口口口口口口口口口口口口口口口口口口口口口口口口口口口口口口口口口口口口口口口口口口口口口口口口口口口口口口口口口口口口口口口口口口口口口口口口口口口口口口口口口口口口口口口口口口口口口口口口口口口口口口口口口口口口口口口口口口口口口口口口口口口口口口口口口口口口口口口口口口口口口口口口口口口口口口口口口口口口口口口口口口口口口口口口口口口口口口口口口口口口口口口口口口口口口口口口口口口口口口口口口口口口口口口口口口口口口口口口口口口口口口口口口口口口口口口口口口口口口口口口口口口口口口口口口口口口口口口口口口口口口口口口口口口口口口口口口口口口口口口口口口口口口口口口口口口口口口口口口口口口口口口口口口口口口口口口口口口口口口口口口口口口口口口口口口口口口口口口口口口口口口口口口口口口口口口口口口口口口口口口口口口口口口口口口口口口口口口口口口口口口口口口口口口口口口口口口口口口口口口口口口口口口口口口口口口口口口口口口口口口口口口口口口口口口口口口口口口口口口口口口口口口口口口口口口口口口口口口口口口口口口口口口口口口口口口口口口口口口口口口口口口口口口口口口口口口口口口口口口口口口口口口口口口口口口口口口口口口口口口口口口口口口口口口口口口口口口口口口口口口口口口口口口口口口口口口口口口口口口口口口口口口口口口口口口口口口口口口口口口口口口口口口口口口口口口口口口口口口口口口口口口口口口口口口口口口口口口口口口口口口口口口口口口口口口口口口口口口口口口口口口口口口口口口口口口口口口口口口口口口口口口口口口口口口口口口口口口口口口口口口口口口口口口口口口口口口口口口口口口口口口口口口口口口口口口口口口口口口口口口口口口口口口口口口口口口口口口口口口口口口口口口口口口口口口口口口口口口口口口口口口口口口口口口口口口口口口口口口口口口口口口口口口口口口口口口口口口口口"

/-- Concrete document satisfying every hypothesis the spec states for the
high-quality scenario while violating the three other syntax rules:
unbalanced delimiters, no defun header pattern, no CJK line comment. -/
def docBad : String :=
  "defun 口\n目标 帮助用户建立系统思考能力并持续精进自我)\n核心信念 长期主义 复利思考 极度求真 极度透明 知行合一)\n思维模型 第一步明确问题 第二步拆解要素 第三步验证结论 持续迭代复盘总结经验教训逐步形成方法论体系)\n(系统思维) (黄金圈法)\n人格特质 语言武器库 执行流程 质量检验标准 禁忌清单 例如\n口口口口口口口口口口口口口口口口口口口口口口口口口口口口口口口口口口口口口口口口口口口口口口口口口口口口口口口口口口口口口口口口口口口口口口口口口口口口口口口口口口口口口口口口口口口口口口口口口口口口口口口口口口口口口口口口口口口口口口口口口口口口口口口口口口口口口口口口口口口口口口口口口口口口口口口口口口口口口口口口口口口口口口口口口口口口口口口口口口口口口口口口口口口口口口口口口口口口口口口口口口口口口口口口口口口口口口口口口口口口口口口口口口口口口口口口口口口口口口口口口口口口口口口口口口口口口口口口口口口口口口口口口口口口口口口口口口口口口口口口口口口口口口口口口口口口口口口口口口口口口口口口口口口口口口口口口口口口口口口口口口口口口口口口口口口口口口口口口口口口口口口口口口口口口口口口口口口口口口口口口口口口口口口口口口口口口口口口口口口口口口口口口口口口口口口口口口口口口口口口口口口口口口口口口口口口口口口口口口口口口口口口口口口口口口口口口口口口口口口口口口口口口口口口口口口口口口口口口口口口口口口口口口口口口口口口口口口口口口口口口口口口口口口口口口口口口口口口口口口口口口口口口口口口口口口口口口口口口口口口口口口口口口口口口口口口口口口口口口口口口口口口口口口口口口口口口口口口口口口口口口口口口口口口口口口口口口口口口口口口口口口口口口口口口口口口口口口口口口口口口口口口口口口口口口口口口口口口口口口口口口口口口口口口口口口口口口口口口口口口口口口口口口口口口口口口口口口口口口口口口口口口口口口口口口口口口口口口口口口口口口口口口口口口口口口口口口口口口口口口口口口口口口口口口口口口口口口口口口口口口口口口口口口口口口口口口口口口口口口口口口口口口口口口口口口口口口口口口口口口口口口口口口口口口口口口口口口口口口口口口口口口口口口口口口口口口口口口口口口口口口口口口口口口口口口口口口口口口口口口口口口口口口口口口口口口口口口口口口口口口口口口口口口口口口口口口口口口口口口口口口口口口口口口口口口口口口口口口口口口口口口口口口口口口口口口口口口口口口口口\n(((((((((((((((("

/-! ### Closed forms for the analyzers -/

/-- Folding a keep-or-deduct step equals deducting the penalty once per
element failing the test, with the issue messages appended in order. -/
lemma foldl_keep_or_deduct {α : Type} (b : α → Bool) (msg : α → String) (pen : Int) :
    ∀ (l : List α) (s : Int) (is : List String),
      l.foldl (fun acc x => if b x then acc else (acc.1 - pen, acc.2 ++ [msg x])) (s, is)
        = (s - pen * ((l.filter fun x => ! b x).length : Int),
           is ++ (l.filter fun x => ! b x).map msg)
  | [], s, is => by simp
  | x :: xs, s, is => by
    by_cases h : b x
    · simp only [List.foldl_cons, h, if_pos, List.filter_cons, Bool.not_eq_true']
      rw [foldl_keep_or_deduct b msg pen xs s is]
      simp [h]
    · simp only [List.foldl_cons, h, if_neg, Bool.false_eq_true, not_false_eq_true,
        List.filter_cons, Bool.not_eq_true']
      rw [foldl_keep_or_deduct b msg pen xs (s - pen) (is ++ [msg x])]
      simp only [h, Bool.not_false, if_pos]
      refine Prod.ext ?_ ?_
      · simp only [List.length_cons]
        push_cast
        ring
      · simp

/-- Folding a conditional counter equals the length of the filtered list. -/
lemma foldl_count_missing {α : Type} (b : α → Bool) :
    ∀ (l : List α) (n : Nat),
      l.foldl (fun n x => if b x then n else n + 1) n
        = n + (l.filter fun x => ! b x).length
  | [], n => by simp
  | x :: xs, n => by
    by_cases h : b x <;>
      simp only [List.foldl_cons, h, if_pos, if_neg, List.filter_cons, Bool.not_eq_true',
        Bool.not_false, Bool.false_eq_true, not_false_eq_true] <;>
      rw [foldl_count_missing b xs] <;> simp [h] <;> omega

/-- Closed form of `check_structure`: 100 minus 30 per missing required
section minus 5 per missing recommended section, clamped at 0, together with
the per-marker issues and the aggregate issue. -/
lemma check_structure_eq (content : String) :
    check_structure content =
      (max 0 (100 - 30 * (((required_sections.filter fun sec => ! inStr sec content).length : Int))
                - 5 * (((recommended_sections.filter fun sec => ! inStr sec content).length : Int))),
       ((required_sections.filter fun sec => ! inStr sec content).map
           fun sec => "❌ 缺少必需部分: " ++ sec)
         ++ (if 0 < (recommended_sections.filter fun sec => ! inStr sec content).length
             then ["⚠️  缺少 " ++ toString (recommended_sections.filter fun sec => ! inStr sec content).length ++ " 个推荐部分"]
             else [])) := by
  unfold check_structure
  rw [foldl_keep_or_deduct (fun sec => inStr sec content)
    (fun sec => "❌ 缺少必需部分: " ++ sec) 30 required_sections 100 []]
  rw [foldl_count_missing (fun sec => inStr sec content) recommended_sections 0]
  refine Prod.ext ?_ ?_
  · simp only
    push_cast
    congr 1
    ring
  · simp only [Nat.zero_add, List.nil_append]
    split <;> simp

/-- The structural sub-score is clamped into [0, 100]. -/
lemma check_structure_bounds (content : String) :
    0 ≤ (check_structure content).1 ∧ (check_structure content).1 ≤ 100 := by
  rw [check_structure_eq]
  dsimp only
  omega

/-- Closed form of `check_stx`: 100 minus the delimiter-mismatch penalty
`min 50 (5*|open-close|)`, minus 20 when the defun pattern is absent, minus 10
when the CJK line comment is absent, clamped at 0; issues in that order. -/
lemma check_stx_eq (content : String) :
    check_stx content =
      (max 0 (100
          - (if content.toList.count '(' ≠ content.toList.count ')'
             then min 50 (|((content.toList.count '(' : Int)) - ((content.toList.count ')' : Int))| * 5)
             else 0)
          - (if defunSearch content then 0 else 20)
          - (if cnCommentSearch content then 0 else 10)),
       (if content.toList.count '(' ≠ content.toList.count ')'
        then ["❌ 括号不配对: 左括号 " ++ toString (content.toList.count '(') ++ " 个, 右括号 " ++ toString (content.toList.count ')') ++ " 个"]
        else [])
       ++ (if defunSearch content then [] else ["⚠️  defun 函数定义格式可能不正确"])
       ++ (if cnCommentSearch content then [] else ["⚠️  缺少中文注释"])) := by
  unfold check_stx
  dsimp only
  split_ifs <;> refine Prod.ext ?_ ?_ <;> simp_all

/-- The syntax sub-score is clamped into [20, 100]: the three deductions are
at most 50 + 20 + 10. -/
lemma check_stx_bounds (content : String) :
    20 ≤ (check_stx content).1 ∧ (check_stx content).1 ≤ 100 := by
  rw [check_stx_eq]
  dsimp only
  have h0 : 0 ≤ |((content.toList.count '(' : Int)) - ((content.toList.count ')' : Int))| :=
    abs_nonneg _
  generalize |((content.toList.count '(' : Int)) - ((content.toList.count ')' : Int))| = d at h0
  split_ifs <;> omega

/-- Closed form of `check_content_quality`: 100 minus the length-band penalty,
the placeholder penalty, the model-density penalty, the step-density penalty
and the example penalty, clamped at 0; issues in that order. -/
lemma check_content_quality_eq (content : String) :
    check_content_quality content =
      (max 0 (100
          - (if content.length < 500 then 40 else if content.length < 1000 then 20 else 0)
          - (if inStr "..." content || inStr "待补充" content || inStr "TODO" content then 15 else 0)
          - (if countTM content < 2 then 20 else 0)
          - (if countSteps content < 3 then 15 else 0)
          - (if ! inStr "示例" content && ! inStr "例如" content && ! inStr "案例" content then 10 else 0)),
       (if content.length < 500 then ["❌ 内容过短，可能提取不完整"]
        else if content.length < 1000 then ["⚠️  内容较短，建议丰富细节"] else [])
       ++ (if inStr "..." content || inStr "待补充" content || inStr "TODO" content
           then ["⚠️  包含占位符或待完成内容"] else [])
       ++ (if countTM content < 2 then ["⚠️  思维模型数量偏少（建议3-5个）"] else [])
       ++ (if countSteps content < 3 then ["⚠️  执行步骤较少（建议3-7步）"] else [])
       ++ (if ! inStr "示例" content && ! inStr "例如" content && ! inStr "案例" content
           then ["💡 建议添加示例或案例"] else [])) := by
  unfold check_content_quality
  split_ifs <;> refine Prod.ext ?_ ?_ <;> simp_all

/-- The content sub-score is clamped into [0, 100]. -/
lemma check_content_quality_bounds (content : String) :
    0 ≤ (check_content_quality content).1 ∧ (check_content_quality content).1 ≤ 100 := by
  rw [check_content_quality_eq]
  dsimp only
  split_ifs <;> omega

/-- The loop body of `_check_completeness` is the keep-or-deduct step for the
`underdeveloped` condition. -/
lemma completenessStep_eq (content : String) :
    completenessStep content = fun acc p =>
      if underdeveloped content p
      then (acc.1 - 15, acc.2 ++ ["⚠️  \x27" ++ p.1 ++ "\x27 部分内容过于简单"])
      else acc := by
  funext acc p
  unfold completenessStep underdeveloped
  by_cases h1 : inStr p.1 content
  · cases hm : secFindFirst p.1.toList content.toList with
    | none => simp [h1, hm]
    | some m =>
      by_cases h2 : m.length < p.2 <;> simp [h1, hm, h2]
  · simp [h1]

/-- Folding a deduct-or-keep step equals deducting the penalty once per
element passing the test, with the issue messages appended in order. -/
lemma foldl_deduct_or_keep {α : Type} (b : α → Bool) (msg : α → String) (pen : Int) :
    ∀ (l : List α) (s : Int) (is : List String),
      l.foldl (fun acc x => if b x then (acc.1 - pen, acc.2 ++ [msg x]) else acc) (s, is)
        = (s - pen * (((l.filter b).length : Int)), is ++ (l.filter b).map msg)
  | [], s, is => by simp
  | x :: xs, s, is => by
    by_cases h : b x
    · simp only [List.foldl_cons, h, if_pos, List.filter_cons, if_true]
      rw [foldl_deduct_or_keep b msg pen xs (s - pen) (is ++ [msg x])]
      refine Prod.ext ?_ ?_
      · simp only [List.length_cons]
        push_cast
        ring
      · simp
    · simp only [List.foldl_cons, h, List.filter_cons, Bool.false_eq_true, not_false_eq_true,
        if_neg, if_false]
      rw [foldl_deduct_or_keep b msg pen xs s is]

/-- Closed form of `check_completeness`: 100 minus 15 per underdeveloped
configured section, minus 10 when the usage-guide check fails, clamped at 0;
issues in loop order followed by the usage-guide issue. -/
lemma check_completeness_eq (content : String) :
    check_completeness content =
      (max 0 (100 - 15 * (((sections_to_check.filter (underdeveloped content)).length : Int))
                - (if ! inStr "使用指南" content && ! inStr "start" content then 10 else 0)),
       (sections_to_check.filter (underdeveloped content)).map
           (fun p => "⚠️  \x27" ++ p.1 ++ "\x27 部分内容过于简单")
         ++ (if ! inStr "使用指南" content && ! inStr "start" content
             then ["💡 建议添加使用指南或启动函数"] else [])) := by
  unfold check_completeness
  rw [completenessStep_eq content]
  rw [foldl_deduct_or_keep (underdeveloped content)
    (fun p => "⚠️  \x27" ++ p.1 ++ "\x27 部分内容过于简单") 15 sections_to_check 100 []]
  dsimp only
  split_ifs <;> refine Prod.ext ?_ ?_ <;> simp

/-- The completeness sub-score is clamped into [45, 100]: the deductions are
at most 3 * 15 + 10. -/
lemma check_completeness_bounds (content : String) :
    45 ≤ (check_completeness content).1 ∧ (check_completeness content).1 ≤ 100 := by
  rw [check_completeness_eq]
  dsimp only
  have hlen : (sections_to_check.filter (underdeveloped content)).length ≤ 3 :=
    List.length_filter_le _ _
  split_ifs <;> omega

/-- The total score in `check_document` is the weighted aggregation of the
four sub-scores. -/
lemma check_document_score (content : String) :
    (check_document content).score =
      ((check_structure content).1 * 25 + (check_stx content).1 * 25
        + (check_content_quality content).1 * 30 + (check_completeness content).1 * 20) / 100 := rfl

/-- The grade in `check_document` is computed from the total score. -/
lemma check_document_grade (content : String) :
    (check_document content).grade = calculate_grade (check_document content).score := rfl

/-! ### Claims -/

/-- C1.  For every document text, the total score produced by `check_file` on a
successful read is the weighted sum `structural*0.25 + syntax*0.25 +
content*0.30 + completeness*0.20` of the four sub-scores truncated toward zero
(floor, as all sub-scores are non-negative; stated as the two-sided floor
inequality multiplied by 100), each sub-score lies in [0, 100] (clamped, never
negative), and the total is an integer in [0, 100]. -/
theorem c1_total_weighted_floor (content : String) :
    (0 ≤ (check_structure content).1 ∧ (check_structure content).1 ≤ 100)
    ∧ (0 ≤ (check_stx content).1 ∧ (check_stx content).1 ≤ 100)
    ∧ (0 ≤ (check_content_quality content).1 ∧ (check_content_quality content).1 ≤ 100)
    ∧ (0 ≤ (check_completeness content).1 ∧ (check_completeness content).1 ≤ 100)
    ∧ 100 * (check_document content).score
        ≤ (check_structure content).1 * 25 + (check_stx content).1 * 25
          + (check_content_quality content).1 * 30 + (check_completeness content).1 * 20
    ∧ (check_structure content).1 * 25 + (check_stx content).1 * 25
        + (check_content_quality content).1 * 30 + (check_completeness content).1 * 20
        < 100 * ((check_document content).score + 1)
    ∧ 0 ≤ (check_document content).score ∧ (check_document content).score ≤ 100 := by
  obtain ⟨h1a, h1b⟩ := check_structure_bounds content
  obtain ⟨h2a, h2b⟩ := check_stx_bounds content
  obtain ⟨h3a, h3b⟩ := check_content_quality_bounds content
  obtain ⟨h4a, h4b⟩ := check_completeness_bounds content
  rw [check_document_score]
  refine ⟨⟨h1a, h1b⟩, ⟨by omega, h2b⟩, ⟨h3a, h3b⟩, ⟨by omega, h4b⟩, ?_, ?_, ?_, ?_⟩ <;> omega

/-- C2.  When the read fails, `check_file` does not propagate the exception but
returns the fixed report: score 0, grade F, empty metrics, exactly one issue
describing the read failure and exactly two generic remediation suggestions. -/
theorem c2_read_failure_report (e : String) :
    check_file (Except.error e) =
      { score := 0, grade := "F", metrics := [],
        issues := ["文件读取失败: " ++ e],
        suggestions := ["检查文件路径是否正确", "确保文件格式正确"] }
    ∧ (check_file (Except.error e)).issues.length = 1
    ∧ (check_file (Except.error e)).suggestions.length = 2 :=
  ⟨rfl, rfl, rfl⟩

/-- C3.  `_calculate_grade` is the five-threshold step function evaluated high
to low with first match winning; in particular 89 gives B and 90 gives A, and
the function is monotone in the score. -/
theorem c3_grade_step_function :
    (∀ score : Int,
        (90 ≤ score → calculate_grade score = "A")
      ∧ (80 ≤ score ∧ score < 90 → calculate_grade score = "B")
      ∧ (70 ≤ score ∧ score < 80 → calculate_grade score = "C")
      ∧ (60 ≤ score ∧ score < 70 → calculate_grade score = "D")
      ∧ (score < 60 → calculate_grade score = "F"))
    ∧ calculate_grade 89 = "B" ∧ calculate_grade 90 = "A"
    ∧ (∀ s t : Int, s ≤ t →
        gradeRank (calculate_grade s) ≤ gradeRank (calculate_grade t)) := by
  constructor
  · intro score
    refine ⟨?_, ?_, ?_, ?_, ?_⟩ <;>
      · intro h
        simp only [calculate_grade]
        split_ifs <;> first | rfl | omega
  · refine ⟨by decide, by decide, fun s t hst => ?_⟩
    simp only [calculate_grade]
    split_ifs <;> simp [gradeRank] <;> omega

/-- Witness for C3 at concrete scores: one in each grade band, and one
monotonicity instance. -/
theorem c3_grade_step_function_w :
    calculate_grade 95 = "A" ∧ calculate_grade 89 = "B" ∧ calculate_grade 75 = "C"
      ∧ calculate_grade 60 = "D" ∧ calculate_grade 12 = "F"
      ∧ gradeRank (calculate_grade 59) ≤ gradeRank (calculate_grade 91) :=
  ⟨(c3_grade_step_function.1 95).1 (by norm_num),
   (c3_grade_step_function.1 89).2.1 ⟨by norm_num, by norm_num⟩,
   (c3_grade_step_function.1 75).2.2.1 ⟨by norm_num, by norm_num⟩,
   (c3_grade_step_function.1 60).2.2.2.1 ⟨by norm_num, by norm_num⟩,
   (c3_grade_step_function.1 12).2.2.2.2 (by norm_num),
   c3_grade_step_function.2.2.2 59 91 (by norm_num)⟩

/-- C4.  The structural check returns `max 0 (100 - 30*R - 5*M)` where `R` is
the number of required markers absent from the text and `M` the number of
absent recommended markers; it emits one issue per missing required marker
naming it, plus a single aggregate issue naming `M` exactly when `M > 0`. -/
theorem c4_structure_scoring (content : String) :
    (check_structure content).1 =
      max 0 (100 - 30 * (((required_sections.filter fun sec => ! inStr sec content).length : Int))
               - 5 * (((recommended_sections.filter fun sec => ! inStr sec content).length : Int)))
    ∧ (check_structure content).2 =
        ((required_sections.filter fun sec => ! inStr sec content).map
            fun sec => "❌ 缺少必需部分: " ++ sec)
          ++ (if 0 < (recommended_sections.filter fun sec => ! inStr sec content).length
              then ["⚠️  缺少 " ++ toString (recommended_sections.filter fun sec => ! inStr sec content).length ++ " 个推荐部分"]
              else []) := by
  rw [check_structure_eq]
  exact ⟨rfl, rfl⟩

/-- C5.  Delimiter balance in the syntax check: equal `(` and `)` counts incur
no mismatch penalty and no mismatch issue; differing counts incur exactly
`min 50 (5*|difference|)` and exactly one issue reporting both counts; one
unmatched opening delimiter incurs exactly 5 points. -/
theorem c5_delimiter_mismatch_penalty (content : String) :
    (content.toList.count '(' = content.toList.count ')' →
      check_stx content =
        (max 0 (100 - (if defunSearch content then 0 else 20)
                  - (if cnCommentSearch content then 0 else 10)),
         (if defunSearch content then [] else ["⚠️  defun 函数定义格式可能不正确"])
           ++ (if cnCommentSearch content then [] else ["⚠️  缺少中文注释"])))
    ∧ (content.toList.count '(' ≠ content.toList.count ')' →
      check_stx content =
        (max 0 (100
            - min 50 (|((content.toList.count '(' : Int)) - ((content.toList.count ')' : Int))| * 5)
            - (if defunSearch content then 0 else 20)
            - (if cnCommentSearch content then 0 else 10)),
         ["❌ 括号不配对: 左括号 " ++ toString (content.toList.count '(') ++ " 个, 右括号 " ++ toString (content.toList.count ')') ++ " 个"]
           ++ ((if defunSearch content then [] else ["⚠️  defun 函数定义格式可能不正确"])
             ++ (if cnCommentSearch content then [] else ["⚠️  缺少中文注释"]))))
    ∧ (content.toList.count '(' = content.toList.count ')' + 1 →
      check_stx content =
        (max 0 (100 - 5 - (if defunSearch content then 0 else 20)
                  - (if cnCommentSearch content then 0 else 10)),
         ["❌ 括号不配对: 左括号 " ++ toString (content.toList.count '(') ++ " 个, 右括号 " ++ toString (content.toList.count ')') ++ " 个"]
           ++ ((if defunSearch content then [] else ["⚠️  defun 函数定义格式可能不正确"])
             ++ (if cnCommentSearch content then [] else ["⚠️  缺少中文注释"])))) := by
  refine ⟨fun h => ?_, fun h => ?_, fun h => ?_⟩
  · have h' : ¬(content.toList.count '(' ≠ content.toList.count ')') := fun hc => hc h
    rw [check_stx_eq]
    simp only [if_neg h']
    simp
  · rw [check_stx_eq]
    simp only [if_pos h]
    simp
  · have hne : content.toList.count '(' ≠ content.toList.count ')' := by omega
    have habs : |((content.toList.count '(' : Int)) - ((content.toList.count ')' : Int))| = 1 := by
      have h5 : ((content.toList.count '(' : Int)) - ((content.toList.count ')' : Int)) = 1 := by
        omega
      rw [h5]
      decide
    have hmin : min (50 : Int) (1 * 5) = 5 := by decide
    rw [check_stx_eq]
    simp only [if_pos hne, habs, hmin]
    simp

/-- Witness for C5 at concrete inputs: the balanced two-character document and
the single-opening-delimiter document. -/
theorem c5_delimiter_mismatch_penalty_w :
    check_stx "()" = (70, ["⚠️  defun 函数定义格式可能不正确", "⚠️  缺少中文注释"])
    ∧ check_stx "(" =
        (65, ["❌ 括号不配对: 左括号 1 个, 右括号 0 个",
              "⚠️  defun 函数定义格式可能不正确", "⚠️  缺少中文注释"]) :=
  ⟨(c5_delimiter_mismatch_penalty "()").1 (by decide),
   (c5_delimiter_mismatch_penalty "(").2.2 (by decide)⟩

/-- C6.  The completeness check subtracts 15 per configured section whose
marker occurs and whose marker-to-first-`)` extract is shorter than the
configured minimum (flagging it), subtracts 10 when neither the usage-guide
marker nor the `start` token occurs (flagging a suggestion), and clamps at 0. -/
theorem c6_completeness_scoring (content : String) :
    (check_completeness content).1 =
      max 0 (100 - 15 * (((sections_to_check.filter (underdeveloped content)).length : Int))
               - (if ! inStr "使用指南" content && ! inStr "start" content then 10 else 0))
    ∧ (check_completeness content).2 =
        (sections_to_check.filter (underdeveloped content)).map
            (fun p => "⚠️  \x27" ++ p.1 ++ "\x27 部分内容过于简单")
          ++ (if ! inStr "使用指南" content && ! inStr "start" content
              then ["💡 建议添加使用指南或启动函数"] else []) := by
  rw [check_completeness_eq]
  exact ⟨rfl, rfl⟩

/-- C7.  The empty document: structural 0, syntax 70, content 15,
completeness 90, total 40, grade F. -/
theorem c7_empty_document :
    (check_structure "").1 = 0 ∧ (check_stx "").1 = 70
    ∧ (check_content_quality "").1 = 15 ∧ (check_completeness "").1 = 90
    ∧ (check_document "").score = 40 ∧ (check_document "").grade = "F" := by
  decide

/-- C9.  The suggestion list is a pure function of the five scores, built in
a fixed order: exactly one of the three total-score banding suggestions, then
one suggestion if structural < 80, one if syntax < 80, exactly two if
content < 80, one if completeness < 80, and one re-extraction suggestion if
total < 70; no branch excludes another except the banding. -/
theorem c9_suggestions_fixed_order (t s_struct s_stx s_cont s_comp : Int) :
    generate_suggestions t s_struct s_stx s_cont s_comp =
      (if t ≥ 90 then ["✨ 质量优秀！可以直接使用"]
       else if t ≥ 80 then ["👍 质量良好，建议优化到90分以上"]
       else ["⚠️  质量需要改进"])
      ++ (if s_struct < 80 then ["📝 补充缺失的结构部分（人格特质、核心信念等）"] else [])
      ++ (if s_stx < 80 then ["🔧 修复 Lisp 语法问题，确保括号配对"] else [])
      ++ (if s_cont < 80 then ["📚 丰富内容细节，添加更多思维模型和步骤", "💡 添加具体示例和案例"] else [])
      ++ (if s_comp < 80 then ["✏️  扩充各部分内容，避免过于简单"] else [])
      ++ (if t < 70 then ["🔄 建议优化输入文案后重新提取"] else []) := by
  unfold generate_suggestions
  split_ifs <;> simp

/-- C10.  For every document: the completeness sub-score is at least 45, the
syntax sub-score at least 20, hence every successfully read document scores at
least 14 — so a zero-score report can never come from scoring a document. -/
theorem c10_minimum_scores (content : String) :
    45 ≤ (check_completeness content).1
    ∧ 20 ≤ (check_stx content).1
    ∧ 14 ≤ (check_file (Except.ok content)).score
    ∧ (check_file (Except.ok content)).score ≠ 0 := by
  obtain ⟨h4a, h4b⟩ := check_completeness_bounds content
  obtain ⟨h2a, h2b⟩ := check_stx_bounds content
  obtain ⟨h1a, h1b⟩ := check_structure_bounds content
  obtain ⟨h3a, h3b⟩ := check_content_quality_bounds content
  have hs : (check_file (Except.ok content)).score =
      ((check_structure content).1 * 25 + (check_stx content).1 * 25
        + (check_content_quality content).1 * 30 + (check_completeness content).1 * 20) / 100 := rfl
  refine ⟨h4a, h2a, ?_, ?_⟩ <;> rw [hs] <;> omega

/-- C8 (amended).  A document containing all required and recommended markers,
with at least 1000 characters, at least 2 thinking-model matches, at least 3
step matches, an example word, a long-enough extract for each completeness
section — and, additionally to the claim as stated, balanced delimiters, the
defun definition pattern and a CJK line comment — scores at least 90 and
grades A. -/
theorem c8_high_quality_amended (content : String)
    (hreq : ∀ sec ∈ required_sections, inStr sec content = true)
    (hrec : ∀ sec ∈ recommended_sections, inStr sec content = true)
    (hlen : 1000 ≤ content.length)
    (htm : 2 ≤ countTM content)
    (hst : 3 ≤ countSteps content)
    (hex : inStr "示例" content = true ∨ inStr "例如" content = true ∨ inStr "案例" content = true)
    (hsec : ∀ p ∈ sections_to_check, extractLongEnough content p = true)
    (hbal : content.toList.count '(' = content.toList.count ')')
    (hdefun : defunSearch content = true)
    (hcmt : cnCommentSearch content = true) :
    90 ≤ (check_document content).score ∧ (check_document content).grade = "A" := by
  have hreqnil : (required_sections.filter fun sec => ! inStr sec content) = [] :=
    List.filter_eq_nil_iff.mpr fun a ha => by simp [hreq a ha]
  have hrecnil : (recommended_sections.filter fun sec => ! inStr sec content) = [] :=
    List.filter_eq_nil_iff.mpr fun a ha => by simp [hrec a ha]
  have h1 : (check_structure content).1 = 100 := by
    rw [check_structure_eq]
    dsimp only
    rw [hreqnil, hrecnil]
    simp
  have h2 : (check_stx content).1 = 100 := by
    rw [check_stx_eq]
    dsimp only
    split_ifs <;> first | omega | simp_all
  have h3l : 85 ≤ (check_content_quality content).1 := by
    rw [check_content_quality_eq]
    dsimp only
    split_ifs <;> first | omega | simp_all
  have h3u : (check_content_quality content).1 ≤ 100 := (check_content_quality_bounds content).2
  have hund : (sections_to_check.filter (underdeveloped content)) = [] := by
    apply List.filter_eq_nil_iff.mpr
    intro p hp
    have he := hsec p hp
    unfold extractLongEnough at he
    unfold underdeveloped
    cases hm : secFindFirst p.1.toList content.toList with
    | none =>
      rw [hm] at he
      simp at he
    | some m =>
      rw [hm] at he
      simp only [decide_eq_true_eq] at he
      simp only [hm, Bool.and_eq_true, decide_eq_true_eq]
      rintro ⟨-, hlt⟩
      omega
  have h4l : 90 ≤ (check_completeness content).1 := by
    rw [check_completeness_eq]
    dsimp only
    rw [hund]
    simp only [List.length_nil, Nat.cast_zero, mul_zero, sub_zero]
    split_ifs <;> omega
  have h4u : (check_completeness content).1 ≤ 100 := (check_completeness_bounds content).2
  have hscore : 90 ≤ (check_document content).score := by
    rw [check_document_score, h1, h2]
    omega
  refine ⟨hscore, ?_⟩
  rw [check_document_grade]
  unfold calculate_grade
  rw [if_pos hscore]

set_option maxRecDepth 1000000 in
set_option maxHeartbeats 4000000 in
/-- C8 (counterexample to the claim as stated).  `docBad` satisfies every
hypothesis the claim lists — all required and recommended markers, 1077
characters, 2 thinking-model matches, 3 step matches, an example word, and
long-enough extracts for all three completeness sections — yet scores 78 with
grade C, because the claim's hypotheses leave the syntax sub-score
unconstrained. -/
theorem c8_high_quality_cex :
    (∀ sec ∈ required_sections, inStr sec docBad = true)
    ∧ (∀ sec ∈ recommended_sections, inStr sec docBad = true)
    ∧ 1000 ≤ docBad.length
    ∧ 2 ≤ countTM docBad
    ∧ 3 ≤ countSteps docBad
    ∧ (inStr "示例" docBad = true ∨ inStr "例如" docBad = true ∨ inStr "案例" docBad = true)
    ∧ (∀ p ∈ sections_to_check, extractLongEnough docBad p = true)
    ∧ (check_document docBad).score = 78
    ∧ (check_document docBad).grade = "C" := by
  decide

set_option maxRecDepth 1000000 in
set_option maxHeartbeats 4000000 in
/-- Witness for the amended C8: `docGood` satisfies all hypotheses and indeed
scores at least 90 with grade A. -/
theorem c8_high_quality_amended_w :
    90 ≤ (check_document docGood).score ∧ (check_document docGood).grade = "A" :=
  c8_high_quality_amended docGood (by decide) (by decide) (by decide) (by decide)
    (by decide) (by decide) (by decide) (by decide) (by decide) (by decide)

end QualityChecker
